import Mathlib

/-!
Verification of the tweetx publish pipeline (src/twitter_bot.py).

The Python source is shallowly embedded below: pure computations become Lean
functions, remote calls (HTTP GET, Twitter media upload, tweet creation) are
injected as explicit oracle parameters, and Python exceptions become `Except`
values.  Machine integers are modelled by `Nat`/`Int` (Python integers are
unbounded, so no wraparound modelling is needed).
-/

namespace TweetX

/-! ## Data model (JSON feed, get_top_tokens) -/

/-- One entry of a token's `channel_calls` array: only its `win_rate` field is
read by the bot (`call.get('win_rate', 0)`). -/
structure ChannelCall where
  win_rate : Int
deriving DecidableEq, Repr

/-- A token object from the outlight feed: the fields the bot reads. -/
structure Token where
  symbol : String
  address : String
  channel_calls : List ChannelCall
deriving DecidableEq, Repr

/-- A token copy carrying the derived `filtered_calls` count, as built by
`get_top_tokens` (`token_copy['filtered_calls'] = count_calls`). -/
structure FilteredToken where
  tok : Token
  filtered_calls : Nat
deriving DecidableEq, Repr

/-- `[call for call in channel_calls if call.get('win_rate', 0) > min_win_rate]`
(twitter_bot.py line 318): strictly-greater comparison. -/
def callsAboveThreshold (min_win_rate : Int) (calls : List ChannelCall) : List ChannelCall :=
  calls.filter (fun c => min_win_rate < c.win_rate)

/-- The filtering loop of `get_top_tokens` (lines 310-328): a token is kept,
with its qualifying-call count attached, exactly when that count is positive. -/
def tokensWithFilteredCalls (min_win_rate : Int) (data : List Token) : List FilteredToken :=
  data.filterMap (fun token =>
    if 0 < (callsAboveThreshold min_win_rate token.channel_calls).length then
      some ⟨token, (callsAboveThreshold min_win_rate token.channel_calls).length⟩
    else none)

/-- Stable insertion used to model Python's stable `sorted(..., reverse=True)`:
an element is placed before the first element whose key is not larger, so
elements with equal keys keep their original relative order. -/
def insertDesc (x : FilteredToken) : List FilteredToken → List FilteredToken
  | [] => [x]
  | y :: ys =>
    if x.filtered_calls < y.filtered_calls then y :: insertDesc x ys
    else x :: y :: ys

/-- Model of `sorted(tokens_with_filtered_calls, key=lambda x: x.get('filtered_calls', 0),
reverse=True)` (line 334): a stable descending sort on `filtered_calls`.
CPython's `sorted` is stable and `reverse=True` preserves the order of ties. -/
def sortDesc : List FilteredToken → List FilteredToken
  | [] => []
  | x :: xs => insertDesc x (sortDesc xs)

/-- The pure part of `get_top_tokens` (lines 310-338), applied to the parsed
JSON feed: filter, stable-sort descending on `filtered_calls`, take the
configured `top_tokens_count`. -/
def getTopTokens (min_win_rate : Int) (top_count : Nat) (data : List Token) :
    List FilteredToken :=
  (sortDesc (tokensWithFilteredCalls min_win_rate data)).take top_count

/-- `get_top_tokens` including its outer try/except (lines 276-344): any
exception while fetching or parsing (modelled by `none` input) yields the
Python value `None`; a successfully parsed feed yields `Some` ranked list,
which may be empty. -/
def getTopTokensOuter (min_win_rate : Int) (top_count : Nat)
    (fetched : Option (List Token)) : Option (List FilteredToken) :=
  match fetched with
  | none => none
  | some data => some (getTopTokens min_win_rate top_count data)

/-! ## The caller's fetch branch (main, lines 556-562) -/

/-- What `main` does right after `get_top_tokens()` returns. -/
inductive FetchBranch where
  /-- `if not top_tokens:` taken — log the warning
  "Failed to fetch top tokens or no tokens returned. Skipping tweet." and return. -/
  | skipRun
  /-- Continue the run with the fetched tokens. -/
  | proceed (tokens : List FilteredToken)
deriving DecidableEq, Repr

/-- `top_tokens = get_top_tokens(); if not top_tokens: ...return` — Python
falsiness of `None` and of the empty list both take the skip branch. -/
def fetchBranch : Option (List FilteredToken) → FetchBranch
  | none => FetchBranch.skipRun
  | some ts => if ts.isEmpty then FetchBranch.skipRun else FetchBranch.proceed ts

/-! ## Tweet formatting (format_main_tweet, format_tokens_reply_tweet)

The templates are the source's defaults (`config.json` is absent from the
repository, so `tweet_templates` falls back to the literals in the code). -/

/-- Python `s.rstrip` restricted to the newline character, as used in
`tweet.rstrip` at lines 412 and 490. -/
def rstripNewlines (s : String) : String :=
  ⟨(s.data.reverse.dropWhile (fun c => c == '\n')).reverse⟩

/-- One token block rendered through the default token template: medal, a
dollar sign and the symbol, the address, a telephone emoji and the call count,
then a blank line. -/
def tokenBlock (medal symbol address : String) (calls : Nat) : String :=
  medal ++ " $" ++ symbol ++ "\n" ++ address ++ "\n📞 " ++ toString calls ++ "\n\n"

/-- `medals[i] if i < len(medals) else f"..."` for the main tweet
(default medals 🥇 🥈 🥉; beyond them the 1-based ordinal with a dot). -/
def mainMedalFor (i : Nat) : String :=
  let medals : List String := ["🥇", "🥈", "🥉"]
  match medals[i]? with
  | some m => m
  | none => toString (i + 1) ++ "."

/-- `format_main_tweet` (lines 348-414) with the default templates: header with
the configured total count and timeframe, one block per shown token
(`top_tokens[:first_tweet_count]`), trailing newlines stripped, empty footer. -/
def formatMainTweet (first_tweet_count total_count : Nat) (timeframe : String)
    (top_tokens : List FilteredToken) : String :=
  let tokens_to_show := top_tokens.take first_tweet_count
  let header := "🚀Top " ++ toString total_count ++ " Most 📞 " ++ timeframe ++ "\n\n"
  let body := String.join (tokens_to_show.enum.map (fun p =>
    tokenBlock (mainMedalFor p.1) p.2.tok.symbol p.2.tok.address p.2.filtered_calls))
  let footer := ""
  rstripNewlines (header ++ body) ++ footer

/-- Reply-tweet medal choice (default medals 4️⃣ … 🔟; beyond them
`first_tweet_count + i + 1` with a dot, line 472). -/
def replyMedalFor (first_tweet_count i : Nat) : String :=
  let medals : List String := ["4️⃣", "5️⃣", "6️⃣", "7️⃣", "8️⃣", "9️⃣", "🔟"]
  match medals[i]? with
  | some m => m
  | none => toString (first_tweet_count + i + 1) ++ "."

/-- `format_tokens_reply_tweet` (lines 418-492) with the default templates:
`None` when `top_tokens[first_tweet_count:]` is empty, otherwise the rendered
blocks for the remaining tokens (default header and footer are empty). -/
def formatTokensReplyTweet (first_tweet_count : Nat) (top_tokens : List FilteredToken) :
    Option String :=
  let remaining_tokens := top_tokens.drop first_tweet_count
  if remaining_tokens.isEmpty then none
  else
    let header := ""
    let body := String.join (remaining_tokens.enum.map (fun p =>
      tokenBlock (replyMedalFor first_tweet_count p.1) p.2.tok.symbol p.2.tok.address
        p.2.filtered_calls))
    let footer := ""
    some (rstripNewlines (header ++ body) ++ footer)

/-! ## retry_requests_call (lines 234-268) -/

/-- Exceptions a `requests.get` call can raise, as classified by
`retry_requests_call`'s except clause. -/
inductive ReqError where
  /-- `requests.exceptions.ConnectionError` -/
  | connectionError
  /-- `requests.exceptions.Timeout` -/
  | timeoutError
  /-- `requests.exceptions.HTTPError` -/
  | httpError
  /-- any other exception: not caught by the wrapper, propagates at once -/
  | otherError
deriving DecidableEq, Repr

/-- Whether `retry_requests_call`'s except clause catches the exception. -/
def isCaughtReq : ReqError → Bool
  | ReqError.connectionError => true
  | ReqError.timeoutError => true
  | ReqError.httpError => true
  | ReqError.otherError => false

/-- The loop of `retry_requests_call`, indexed by the current `attempt` and the
remaining loop iterations.  The wrapped call is an oracle `op` giving each
attempt's outcome.  Returns (function result — `none` models falling off the
loop when `retry_attempts = 0`, number of calls made, sleep durations).
`base_delay` is the hard-coded 2; the backoff is `2 * 2 ** attempt`. -/
def retryRequestsAux {α : Type} (op : Nat → Except ReqError α) :
    Nat → Nat → Option (Except ReqError α) × Nat × List Nat
  | _, 0 => (none, 0, [])
  | attempt, r + 1 =>
    match op attempt with
    | Except.ok a => (some (Except.ok a), 1, [])
    | Except.error e =>
      if isCaughtReq e = false then (some (Except.error e), 1, [])
      else if r = 0 then (some (Except.error e), 1, [])
      else
        let delay := 2 * 2 ^ attempt
        let t := retryRequestsAux op (attempt + 1) r
        (t.1, t.2.1 + 1, delay :: t.2.2)

/-- `retry_requests_call(func, ...)` with `retry_attempts` from config
(default 3): run the loop from attempt 0. -/
def retryRequestsCall {α : Type} (op : Nat → Except ReqError α) (retry_attempts : Nat) :
    Option (Except ReqError α) × Nat × List Nat :=
  retryRequestsAux op 0 retry_attempts

/-! ## retry_api_call (lines 68-202) -/

/-- Exceptions a tweepy call can raise, as classified by `retry_api_call`. -/
inductive TwError where
  /-- `tweepy.TooManyRequests`, carrying the `x-rate-limit-reset` header when
  present (missing header is read as 0 via `.get(..., 0)`). -/
  | tooManyRequests (resetHeader : Option Int)
  /-- any other `tweepy.TweepyException`: optional HTTP status code, exception
  class name, and the exception's string form `str(e)`. -/
  | tweepyError (status : Option Int) (name : String) (msg : String)
  /-- a non-tweepy exception, identified by its class name. -/
  | otherError (name : String)
deriving DecidableEq, Repr

/-- The retry configuration read from `config['twitter']['retry']`
(lines 76-88). -/
structure ApiCfg where
  max_attempts : Nat
  base_delay : Int
  max_delay : Int
  backoff_multiplier : Int
  retryable_status_codes : List Int
  retryable_exceptions : List String
deriving Repr

/-- The defaults hard-coded at lines 78-88. -/
def defaultApiCfg : ApiCfg :=
  ⟨3, 5, 300, 2, [429, 500, 502, 503, 504], ["ConnectionError", "Timeout", "TooManyRequests"]⟩

/-- Prefix test on character lists (needle against haystack head). -/
def matchesAt : List Char → List Char → Bool
  | [], _ => true
  | _ :: _, [] => false
  | a :: as, b :: bs => a == b && matchesAt as bs

/-- Substring test on character lists. -/
def containsSub (needle : List Char) : List Char → Bool
  | [] => matchesAt needle []
  | b :: bs => matchesAt needle (b :: bs) || containsSub needle bs

/-- Python `needle in s.lower()` for an all-lowercase needle. -/
def pyInLower (needle s : String) : Bool :=
  containsSub needle.data (s.data.map Char.toLower)

/-- The `is_retryable` classification for a `tweepy.TweepyException`
(lines 140-156): status code in the retryable list, or exception class name in
the retryable list, or — when the respective names are configured retryable —
the strings "connection" / "timeout" occurring in `str(e).lower()`. -/
def isRetryableTweepy (cfg : ApiCfg) (status : Option Int) (name msg : String) : Bool :=
  (match status with
   | some s => cfg.retryable_status_codes.contains s
   | none => false)
  || cfg.retryable_exceptions.contains name
  || (cfg.retryable_exceptions.contains "ConnectionError" && pyInLower "connection" msg)
  || (cfg.retryable_exceptions.contains "Timeout" && pyInLower "timeout" msg)

/-- The rate-limit wait of lines 110-116:
`max(reset_time - current_time + 10, base_delay)` capped at `max_delay`. -/
def rateLimitWait (reset_time current_time base_delay max_delay : Int) : Int :=
  min (max (reset_time - current_time + 10) base_delay) max_delay

/-- The exponential backoff of lines 170 and 196:
`min(base_delay * backoff_multiplier ** attempt, max_delay)`. -/
def backoffDelay (base_delay mult : Int) (attempt : Nat) (max_delay : Int) : Int :=
  min (base_delay * mult ^ attempt) max_delay

/-- Observable trace of one `retry_api_call` invocation. -/
structure ApiTrace (α : Type) where
  /-- the value returned, or the exception finally re-raised; `none` models
  falling off the loop when `max_attempts = 0`. -/
  result : Option (Except TwError α)
  /-- how many times the wrapped function was invoked. -/
  attempts : Nat
  /-- the `time.sleep` durations, in order. -/
  sleeps : List Int
deriving Repr

/-- The loop of `retry_api_call` (lines 92-202), indexed by the current
`attempt` and the remaining iterations; the wrapped tweepy call is the oracle
`op`, and `now` gives `int(time.time())` at each handling point. -/
def retryApiAux {α : Type} (cfg : ApiCfg) (op : Nat → Except TwError α) (now : Nat → Int) :
    Nat → Nat → ApiTrace α
  | _, 0 => ⟨none, 0, []⟩
  | attempt, r + 1 =>
    match op attempt with
    | Except.ok a => ⟨some (Except.ok a), 1, []⟩
    | Except.error (TwError.tooManyRequests resetHeader) =>
      if cfg.retryable_exceptions.contains "TooManyRequests" = false then
        ⟨some (Except.error (TwError.tooManyRequests resetHeader)), 1, []⟩
      else
        let wait_time :=
          rateLimitWait (resetHeader.getD 0) (now attempt) cfg.base_delay cfg.max_delay
        if r = 0 then
          ⟨some (Except.error (TwError.tooManyRequests resetHeader)), 1, []⟩
        else
          let t := retryApiAux cfg op now (attempt + 1) r
          ⟨t.result, t.attempts + 1, wait_time :: t.sleeps⟩
    | Except.error (TwError.tweepyError status name msg) =>
      if isRetryableTweepy cfg status name msg = false ∨ r = 0 then
        ⟨some (Except.error (TwError.tweepyError status name msg)), 1, []⟩
      else
        let t := retryApiAux cfg op now (attempt + 1) r
        ⟨t.result, t.attempts + 1,
          backoffDelay cfg.base_delay cfg.backoff_multiplier attempt cfg.max_delay :: t.sleeps⟩
    | Except.error (TwError.otherError name) =>
      if cfg.retryable_exceptions.contains name = false ∨ r = 0 then
        ⟨some (Except.error (TwError.otherError name)), 1, []⟩
      else
        let t := retryApiAux cfg op now (attempt + 1) r
        ⟨t.result, t.attempts + 1,
          backoffDelay cfg.base_delay cfg.backoff_multiplier attempt cfg.max_delay :: t.sleeps⟩

/-- `retry_api_call(func, ...)`: run the loop from attempt 0 for
`max_attempts` iterations. -/
def retryApiCall {α : Type} (cfg : ApiCfg) (op : Nat → Except TwError α) (now : Nat → Int) :
    ApiTrace α :=
  retryApiAux cfg op now 0 cfg.max_attempts

/-! ## The publish session (main, lines 608-754)

Each remote operation's net outcome (the value `retry_api_call` returned, or
the exception it finally re-raised) is injected as an oracle field. -/

/-- Oracle for one run of the posting try-block. -/
structure PublishEnv where
  /-- `os.path.isfile(image_path)` for the main tweet's image. -/
  mainImageExists : Bool
  /-- outcome of `retry_api_call(api_v1.media_upload, image_path)`:
  the `media_id`, or the exception raised after retries. -/
  mainUpload : Except TwError Nat
  /-- outcome of `retry_api_call(client.create_tweet, text=main_tweet_text, ...)`:
  the created tweet's id, or the exception raised after retries. -/
  rootPost : Except TwError Nat
  /-- `os.path.isfile(tokens_image_path)` for the reply image. -/
  replyImageExists : Bool
  /-- outcome of the reply image upload. -/
  replyUpload : Except TwError Nat
  /-- outcome of the reply `create_tweet`. -/
  replyPost : Except TwError Nat
  /-- `config['timing']['tokens_reply_delay_seconds']` (default 120). -/
  tokensDelay : Nat
deriving Repr

/-- Python truthiness of a possibly-absent integer (`if media_id:`). -/
def pyTruthyNat : Option Nat → Bool
  | none => false
  | some n => n != 0

/-- Python truthiness of a possibly-`None` string (`if tokens_reply_text:`). -/
def pyTruthyStrOpt : Option String → Bool
  | none => false
  | some s => !s.isEmpty

/-- Observable outcome of the posting try-block. -/
structure SessionResult where
  /-- ids of the tweets actually created, in order. -/
  published : List Nat
  /-- the text handed to `create_tweet` for the root post (always submitted
  once the try-block is reached). -/
  rootSubmittedText : Option String
  /-- whether the root `create_tweet` carried a `media_ids` argument. -/
  rootMediaAttached : Bool
  /-- the text handed to the reply `create_tweet`, if that call was reached. -/
  replySubmittedText : Option String
  /-- whether the reply `create_tweet` carried a `media_ids` argument. -/
  replyMediaAttached : Bool
  /-- how many times `media_upload` was invoked for the reply image. -/
  replyUploadAttempts : Nat
  /-- how many times the reply `create_tweet` was invoked. -/
  replySubmitAttempts : Nat
  /-- the `time.sleep` pacing delays taken, in order. -/
  sleeps : List Nat
  /-- whether the run fell into the outer except (lines 750-754),
  logging "Critical error in tweet sending process". -/
  failed : Bool
deriving Repr

/-- The try-block of `main` (lines 608-754).  Main-image upload failure is
caught locally (`media_id = None`, lines 630-634); a root-post failure aborts
to the outer except before any reply work; the reply block runs only when
`tokens_reply_text` is truthy, sleeping first, then uploading its image
(failure again caught locally), then creating the reply; a reply-post failure
also aborts to the outer except. -/
def runPublishSession (env : PublishEnv) (main_tweet_text : String)
    (tokens_reply_text : Option String) : SessionResult :=
  let media_id : Option Nat :=
    if env.mainImageExists then
      match env.mainUpload with
      | Except.ok m => some m
      | Except.error _ => none
    else none
  match env.rootPost with
  | Except.error _ =>
    ⟨[], some main_tweet_text, pyTruthyNat media_id, none, false, 0, 0, [], true⟩
  | Except.ok main_tweet_id =>
    if pyTruthyStrOpt tokens_reply_text then
      let tokens_media_id : Option Nat :=
        if env.replyImageExists then
          match env.replyUpload with
          | Except.ok m => some m
          | Except.error _ => none
        else none
      let upAttempts := if env.replyImageExists then 1 else 0
      match env.replyPost with
      | Except.error _ =>
        ⟨[main_tweet_id], some main_tweet_text, pyTruthyNat media_id,
          tokens_reply_text, pyTruthyNat tokens_media_id, upAttempts, 1,
          [env.tokensDelay], true⟩
      | Except.ok tokens_reply_id =>
        ⟨[main_tweet_id, tokens_reply_id], some main_tweet_text, pyTruthyNat media_id,
          tokens_reply_text, pyTruthyNat tokens_media_id, upAttempts, 1,
          [env.tokensDelay], false⟩
    else
      ⟨[main_tweet_id], some main_tweet_text, pyTruthyNat media_id,
        none, false, 0, 0, [], false⟩

/-- The post-fetch part of `main`: format the main tweet and the reply tweet
from the ranked tokens (lines 566-578), then run the posting try-block.  The
length validation at lines 588-604 only logs warnings and alters nothing, so
it contributes no data to the outcome. -/
def mainFlow (first_tweet_count total_count : Nat) (timeframe : String)
    (env : PublishEnv) (top_tokens : List FilteredToken) : SessionResult :=
  runPublishSession env
    (formatMainTweet first_tweet_count total_count timeframe top_tokens)
    (formatTokensReplyTweet first_tweet_count top_tokens)

/-! ## Concrete example inputs (used by witnesses and counterexamples) -/

/-- A feed token none of whose channel calls clears the default threshold 30
(30 itself does not: the comparison is strict). -/
def demoBad : Token := ⟨"BAD", "badaddr", [⟨10⟩, ⟨30⟩]⟩

/-- A feed token with one qualifying channel call. -/
def demoGood : Token := ⟨"GOOD", "goodaddr", [⟨50⟩, ⟨20⟩]⟩

/-- A two-token feed. -/
def demoFeed : List Token := [demoGood, demoBad]

/-- A ranked token whose address is 300 characters, so the rendered main tweet
exceeds 280 characters. -/
def longAddrToken : FilteredToken :=
  ⟨⟨"LONGTOKEN", String.mk (List.replicate 300 'x'), []⟩, 7⟩

/-- A run in which every remote call succeeds. -/
def envAllOk : PublishEnv :=
  ⟨true, Except.ok 900, Except.ok 1, true, Except.ok 901, Except.ok 2, 120⟩

/-- A run in which the root `create_tweet` fails after all retries. -/
def envRootFail : PublishEnv :=
  ⟨true, Except.ok 900,
    Except.error (TwError.tweepyError (some 401) "Unauthorized" "Invalid credentials"),
    true, Except.ok 901, Except.ok 902, 120⟩

/-- A run in which the main image upload fails but both posts succeed. -/
def envUploadFails : PublishEnv :=
  ⟨true, Except.error (TwError.otherError "TweepyException"), Except.ok 11,
    true, Except.ok 905, Except.ok 22, 120⟩

/-! ## Helper lemmas about the stable descending sort -/

theorem mem_insertDesc {x a : FilteredToken} {l : List FilteredToken} :
    a ∈ insertDesc x l ↔ a = x ∨ a ∈ l := by
  induction l with
  | nil => simp [insertDesc]
  | cons y ys ih =>
    by_cases h : x.filtered_calls < y.filtered_calls
    · simp only [insertDesc, if_pos h, List.mem_cons, ih]
      tauto
    · simp only [insertDesc, if_neg h, List.mem_cons]

theorem pairwise_insertDesc {x : FilteredToken} {l : List FilteredToken}
    (hl : l.Pairwise (fun a b => b.filtered_calls ≤ a.filtered_calls)) :
    (insertDesc x l).Pairwise (fun a b => b.filtered_calls ≤ a.filtered_calls) := by
  induction l with
  | nil => simp [insertDesc]
  | cons y ys ih =>
    rcases List.pairwise_cons.mp hl with ⟨hy, hys⟩
    by_cases h : x.filtered_calls < y.filtered_calls
    · simp only [insertDesc, if_pos h]
      refine List.pairwise_cons.mpr ⟨?_, ih hys⟩
      intro z hz
      rcases mem_insertDesc.mp hz with rfl | hz'
      · exact Nat.le_of_lt h
      · exact hy z hz'
    · simp only [insertDesc, if_neg h]
      refine List.pairwise_cons.mpr ⟨?_, hl⟩
      intro z hz
      rcases List.mem_cons.mp hz with rfl | hz'
      · exact Nat.le_of_not_lt h
      · exact le_trans (hy z hz') (Nat.le_of_not_lt h)

theorem mem_sortDesc {a : FilteredToken} {l : List FilteredToken} :
    a ∈ sortDesc l ↔ a ∈ l := by
  induction l with
  | nil => simp [sortDesc]
  | cons x xs ih => simp [sortDesc, mem_insertDesc, ih]

theorem pairwise_sortDesc (l : List FilteredToken) :
    (sortDesc l).Pairwise (fun a b => b.filtered_calls ≤ a.filtered_calls) := by
  induction l with
  | nil => simp [sortDesc]
  | cons x xs ih =>
    simp only [sortDesc]
    exact pairwise_insertDesc ih

theorem filter_insertDesc (c : Nat) (x : FilteredToken) (l : List FilteredToken) :
    (insertDesc x l).filter (fun t => t.filtered_calls == c) =
      if x.filtered_calls == c then
        x :: l.filter (fun t => t.filtered_calls == c)
      else l.filter (fun t => t.filtered_calls == c) := by
  induction l with
  | nil =>
    by_cases hx : x.filtered_calls = c <;>
      simp [insertDesc, List.filter_cons, hx]
  | cons y ys ih =>
    by_cases h : x.filtered_calls < y.filtered_calls
    · simp only [insertDesc]
      rw [if_pos h]
      by_cases hx : x.filtered_calls = c
      · have hyc : ¬ y.filtered_calls = c := by omega
        simp [List.filter_cons, hx, hyc, ih]
      · simp [List.filter_cons, hx, ih]
    · simp only [insertDesc]
      rw [if_neg h]
      by_cases hx : x.filtered_calls = c <;>
        simp [List.filter_cons, hx]

theorem filter_sortDesc (c : Nat) (l : List FilteredToken) :
    (sortDesc l).filter (fun t => t.filtered_calls == c) =
      l.filter (fun t => t.filtered_calls == c) := by
  induction l with
  | nil => rfl
  | cons x xs ih =>
    by_cases hx : x.filtered_calls = c <;>
      simp [sortDesc, filter_insertDesc, ih, List.filter_cons, hx]

/-! ## Claim theorems -/

/-- C3: for every feed input, the ranked token list produced by
`get_top_tokens` is non-increasing in `filtered_calls`, its length is at most
the configured `top_tokens_count`, and the sort is stable: for every count
value, the tokens carrying that count appear in the sorted list in exactly
their original feed order. -/
theorem ranked_list_sorted_and_bounded (min_win_rate : Int) (top_count : Nat)
    (data : List Token) :
    (getTopTokens min_win_rate top_count data).Pairwise
      (fun a b => b.filtered_calls ≤ a.filtered_calls) ∧
    (getTopTokens min_win_rate top_count data).length ≤ top_count ∧
    (∀ c : Nat,
      (sortDesc (tokensWithFilteredCalls min_win_rate data)).filter
          (fun t => t.filtered_calls == c) =
        (tokensWithFilteredCalls min_win_rate data).filter
          (fun t => t.filtered_calls == c)) := by
  refine ⟨?_, ?_, fun c => filter_sortDesc c _⟩
  · exact List.Pairwise.sublist (List.take_sublist _ _)
      (pairwise_sortDesc (tokensWithFilteredCalls min_win_rate data))
  · simp [getTopTokens]

/-- C4: a token all of whose channel calls have `win_rate ≤ min_win_rate`
never appears in the ranked list; moreover every ranked entry's
`filtered_calls` counts exactly the channel calls with `win_rate` strictly
above the threshold, and that count is positive. -/
theorem below_threshold_token_excluded (min_win_rate : Int) (top_count : Nat)
    (data : List Token) (tok : Token)
    (h : ∀ c ∈ tok.channel_calls, c.win_rate ≤ min_win_rate) :
    (∀ ft ∈ getTopTokens min_win_rate top_count data, ft.tok ≠ tok) ∧
    (∀ ft ∈ getTopTokens min_win_rate top_count data,
      ft.filtered_calls = (callsAboveThreshold min_win_rate ft.tok.channel_calls).length ∧
      0 < ft.filtered_calls) := by
  have key : ∀ ft ∈ getTopTokens min_win_rate top_count data,
      ft.filtered_calls = (callsAboveThreshold min_win_rate ft.tok.channel_calls).length ∧
      0 < ft.filtered_calls := by
    intro ft hft
    have h1 : ft ∈ sortDesc (tokensWithFilteredCalls min_win_rate data) :=
      List.take_subset _ _ hft
    have h2 : ft ∈ tokensWithFilteredCalls min_win_rate data := mem_sortDesc.mp h1
    rcases List.mem_filterMap.mp h2 with ⟨token, _, hsome⟩
    by_cases hc : 0 < (callsAboveThreshold min_win_rate token.channel_calls).length
    · rw [if_pos hc] at hsome
      cases hsome
      exact ⟨rfl, hc⟩
    · rw [if_neg hc] at hsome
      exact absurd hsome (by simp)
  refine ⟨?_, key⟩
  intro ft hft heq
  rcases key ft hft with ⟨hcount, hpos⟩
  rw [heq] at hcount
  have hnil : callsAboveThreshold min_win_rate tok.channel_calls = [] := by
    apply List.filter_eq_nil_iff.mpr
    intro c hc
    simpa using not_lt.mpr (h c hc)
  rw [hnil] at hcount
  simp at hcount
  omega

/-- Witness for C4 at a concrete feed: `demoBad`'s calls are all at most 30,
and it is excluded from the ranked list. -/
theorem below_threshold_token_excluded_witness :
    (∀ c ∈ demoBad.channel_calls, c.win_rate ≤ 30) ∧
    ((∀ ft ∈ getTopTokens 30 3 demoFeed, ft.tok ≠ demoBad) ∧
     (∀ ft ∈ getTopTokens 30 3 demoFeed,
       ft.filtered_calls = (callsAboveThreshold 30 ft.tok.channel_calls).length ∧
       0 < ft.filtered_calls)) :=
  ⟨by decide, below_threshold_token_excluded 30 3 demoFeed demoBad (by decide)⟩

/-- Auxiliary: when the wrapped call fails on every attempt with an exception
`retry_requests_call` catches, the loop makes exactly as many calls as it has
iterations and re-raises the exception at the end. -/
theorem retryRequestsAux_const_err (e : ReqError) (he : isCaughtReq e = true) :
    ∀ r attempt : Nat,
      (retryRequestsAux (fun _ => (Except.error e : Except ReqError Nat)) attempt (r + 1)).1 =
          some (Except.error e) ∧
      (retryRequestsAux (fun _ => (Except.error e : Except ReqError Nat)) attempt (r + 1)).2.1 =
          r + 1
  | 0, attempt => by simp [retryRequestsAux, he]
  | m + 1, attempt => by
    obtain ⟨h1, h2⟩ := retryRequestsAux_const_err e he m (attempt + 1)
    rw [retryRequestsAux]
    simp [he, h1, h2]

/-- C2 counterexample: a fetch that keeps failing with a connection error
makes three GET requests under the default `retry_attempts = 3`, not one. -/
theorem fetch_retries_counterexample :
    (retryRequestsCall (fun _ => (Except.error ReqError.connectionError : Except ReqError Nat))
        3).2.1 = 3 ∧
    (retryRequestsCall (fun _ => (Except.error ReqError.connectionError : Except ReqError Nat))
        3).2.1 ≠ 1 := by
  constructor <;> decide

/-- C2 amended: the data-fetch GET *is* retried inside `get_top_tokens`: on a
connection error, timeout or HTTPError the wrapper re-invokes the call up to
`retry_attempts` times (so an always-failing fetch makes `retry_attempts`
GET requests, then the exception propagates and `get_top_tokens` returns
`None`); only exceptions outside that list propagate after a single call. -/
theorem fetch_retry_behavior (e : ReqError) (n : Nat) (he : isCaughtReq e = true) :
    (retryRequestsCall (fun _ => (Except.error e : Except ReqError Nat)) (n + 1)).1 =
        some (Except.error e) ∧
    (retryRequestsCall (fun _ => (Except.error e : Except ReqError Nat)) (n + 1)).2.1 = n + 1 ∧
    (retryRequestsCall (fun _ => (Except.error ReqError.otherError : Except ReqError Nat))
        (n + 1)).2.1 = 1 := by
  obtain ⟨h1, h2⟩ := retryRequestsAux_const_err e he n 0
  exact ⟨h1, h2, by simp [retryRequestsCall, retryRequestsAux, isCaughtReq]⟩

/-- Witness for C2's amended theorem: a permanently timing-out fetch with
`retry_attempts = 3` makes three GET calls. -/
theorem fetch_retry_behavior_witness :
    isCaughtReq ReqError.timeoutError = true ∧
    ((retryRequestsCall (fun _ => (Except.error ReqError.timeoutError : Except ReqError Nat))
          3).1 = some (Except.error ReqError.timeoutError) ∧
     (retryRequestsCall (fun _ => (Except.error ReqError.timeoutError : Except ReqError Nat))
          3).2.1 = 3 ∧
     (retryRequestsCall (fun _ => (Except.error ReqError.otherError : Except ReqError Nat))
          3).2.1 = 1) :=
  ⟨rfl, fetch_retry_behavior ReqError.timeoutError 2 rfl⟩

/-- C5 counterexample: the fetcher does return distinct values for a failed
fetch (`None`) and an empty-but-successful fetch (`[]`), but `main`'s single
`if not top_tokens:` branch maps both to the identical action — the same
warning and skip — so the caller does not treat the two cases differently. -/
theorem empty_vs_failure_counterexample :
    getTopTokensOuter 30 3 none = none ∧
    getTopTokensOuter 30 3 (some []) = some [] ∧
    fetchBranch (getTopTokensOuter 30 3 none) =
      fetchBranch (getTopTokensOuter 30 3 (some [])) :=
  ⟨rfl, rfl, rfl⟩

/-- C5 amended: `get_top_tokens` distinguishes failure (`None`) from an empty
successful result (`[]`), but the caller collapses the two: `if not top_tokens:`
logs the same warning and skips posting for both, and only a non-empty list
proceeds. -/
theorem empty_vs_failure_amended :
    (∀ (min_win_rate : Int) (top_count : Nat) (feed : List Token),
      getTopTokensOuter min_win_rate top_count (some feed) =
        some (getTopTokens min_win_rate top_count feed)) ∧
    fetchBranch none = FetchBranch.skipRun ∧
    fetchBranch (some []) = FetchBranch.skipRun ∧
    (∀ (t : FilteredToken) (ts : List FilteredToken),
      fetchBranch (some (t :: ts)) = FetchBranch.proceed (t :: ts)) :=
  ⟨fun _ _ _ => rfl, rfl, rfl, fun _ _ => rfl⟩

/-- C6: when the transport handles a rate-limited response, the wait slept
before the retry is exactly `max(reset - now + 10, base_delay)` capped at
`max_delay`; with `reset = now + 5` that wait is at least 5 seconds and at
most the configured `max_delay` (provided `max_delay` is at least 5). -/
theorem rate_limit_wait_bounds (cfg : ApiCfg) (now0 : Int)
    (hTMR : cfg.retryable_exceptions.contains "TooManyRequests" = true)
    (hA : 2 ≤ cfg.max_attempts) (hM : 5 ≤ cfg.max_delay) :
    (retryApiCall cfg
        (fun _ => (Except.error (TwError.tooManyRequests (some (now0 + 5)))
          : Except TwError Nat))
        (fun _ => now0)).sleeps.head? =
      some (rateLimitWait (now0 + 5) now0 cfg.base_delay cfg.max_delay) ∧
    5 ≤ rateLimitWait (now0 + 5) now0 cfg.base_delay cfg.max_delay ∧
    rateLimitWait (now0 + 5) now0 cfg.base_delay cfg.max_delay ≤ cfg.max_delay := by
  obtain ⟨m, hm⟩ : ∃ m, cfg.max_attempts = m + 2 := ⟨cfg.max_attempts - 2, by omega⟩
  refine ⟨?_, ?_, min_le_right _ _⟩
  · have hmem : "TooManyRequests" ∈ cfg.retryable_exceptions := by
      simpa using hTMR
    unfold retryApiCall
    rw [hm]
    rw [retryApiAux]
    simp [hTMR, hmem]
  · unfold rateLimitWait
    refine le_min ?_ hM
    have h15 : now0 + 5 - now0 + 10 = (15 : Int) := by ring
    rw [h15]
    exact le_trans (by norm_num) (le_max_left (15 : Int) cfg.base_delay)

/-- Witness for C6 at the default retry configuration and `now = 1000`. -/
theorem rate_limit_wait_bounds_witness :
    (defaultApiCfg.retryable_exceptions.contains "TooManyRequests" = true ∧
     2 ≤ defaultApiCfg.max_attempts ∧ 5 ≤ defaultApiCfg.max_delay) ∧
    ((retryApiCall defaultApiCfg
        (fun _ => (Except.error (TwError.tooManyRequests (some (1000 + 5)))
          : Except TwError Nat))
        (fun _ => 1000)).sleeps.head? =
      some (rateLimitWait (1000 + 5) 1000 defaultApiCfg.base_delay defaultApiCfg.max_delay) ∧
     5 ≤ rateLimitWait (1000 + 5) 1000 defaultApiCfg.base_delay defaultApiCfg.max_delay ∧
     rateLimitWait (1000 + 5) 1000 defaultApiCfg.base_delay defaultApiCfg.max_delay ≤
       defaultApiCfg.max_delay) :=
  ⟨⟨by decide, by decide, by decide⟩,
    rate_limit_wait_bounds defaultApiCfg 1000 (by decide) (by decide) (by decide)⟩

/-- C7 counterexample: a 403 client error whose message happens to contain the
substring "connection" is classified retryable by line 152's substring test,
so under the default configuration three attempts are made, not one. -/
theorem client_error_retried_counterexample :
    (retryApiCall defaultApiCfg
        (fun _ => (Except.error
          (TwError.tweepyError (some 403) "Forbidden" "Connection to this resource is forbidden")
          : Except TwError Nat))
        (fun _ => 0)).attempts = 3 ∧
    (retryApiCall defaultApiCfg
        (fun _ => (Except.error
          (TwError.tweepyError (some 403) "Forbidden" "Connection to this resource is forbidden")
          : Except TwError Nat))
        (fun _ => 0)).attempts ≠ 1 := by
  constructor <;> decide

/-- C7 amended: a TweepyException is surfaced after exactly one attempt, with
no sleeps, precisely when the classification deems it non-retryable: its
status code is not in `retryable_status_codes`, its class name is not in
`retryable_exceptions`, and `str(e).lower()` contains neither "connection"
nor "timeout" (a client error whose message contains those substrings is
retried, contrary to the original claim). -/
theorem client_error_no_retry (cfg : ApiCfg) (op : Nat → Except TwError Nat) (now : Nat → Int)
    (status : Int) (name msg : String)
    (hmax : 1 ≤ cfg.max_attempts)
    (hop : op 0 = Except.error (TwError.tweepyError (some status) name msg))
    (hs : cfg.retryable_status_codes.contains status = false)
    (hn : cfg.retryable_exceptions.contains name = false)
    (hc : pyInLower "connection" msg = false)
    (ht : pyInLower "timeout" msg = false) :
    (retryApiCall cfg op now).attempts = 1 ∧
    (retryApiCall cfg op now).result =
      some (Except.error (TwError.tweepyError (some status) name msg)) ∧
    (retryApiCall cfg op now).sleeps = [] := by
  obtain ⟨m, hm⟩ : ∃ m, cfg.max_attempts = m + 1 := ⟨cfg.max_attempts - 1, by omega⟩
  have hcls : isRetryableTweepy cfg (some status) name msg = false := by
    have hs' : status ∉ cfg.retryable_status_codes := by simpa using hs
    have hn' : name ∉ cfg.retryable_exceptions := by simpa using hn
    simp [isRetryableTweepy, hc, ht, hs', hn']
  unfold retryApiCall
  rw [hm]
  rw [retryApiAux]
  simp [hop, hcls]

/-- Witness for C7's amended theorem: a 401 with a neutral message makes
exactly one attempt under the default configuration. -/
theorem client_error_no_retry_witness :
    (1 ≤ defaultApiCfg.max_attempts ∧
     defaultApiCfg.retryable_status_codes.contains 401 = false ∧
     defaultApiCfg.retryable_exceptions.contains "Unauthorized" = false ∧
     pyInLower "connection" "Invalid or expired token" = false ∧
     pyInLower "timeout" "Invalid or expired token" = false) ∧
    ((retryApiCall defaultApiCfg
        (fun _ => (Except.error
          (TwError.tweepyError (some 401) "Unauthorized" "Invalid or expired token")
          : Except TwError Nat))
        (fun _ => 0)).attempts = 1 ∧
     (retryApiCall defaultApiCfg
        (fun _ => (Except.error
          (TwError.tweepyError (some 401) "Unauthorized" "Invalid or expired token")
          : Except TwError Nat))
        (fun _ => 0)).result =
      some (Except.error (TwError.tweepyError (some 401) "Unauthorized" "Invalid or expired token")) ∧
     (retryApiCall defaultApiCfg
        (fun _ => (Except.error
          (TwError.tweepyError (some 401) "Unauthorized" "Invalid or expired token")
          : Except TwError Nat))
        (fun _ => 0)).sleeps = []) :=
  ⟨⟨by decide, by decide, by decide, by decide, by decide⟩,
    client_error_no_retry defaultApiCfg
      (fun _ => (Except.error
        (TwError.tweepyError (some 401) "Unauthorized" "Invalid or expired token")
        : Except TwError Nat))
      (fun _ => 0) 401 "Unauthorized" "Invalid or expired token"
      (by decide) rfl (by decide) (by decide) (by decide) (by decide)⟩

set_option maxRecDepth 20000 in
/-- C1 counterexample: a ranked token with a 300-character address renders to
a main tweet longer than 280 characters, yet the pipeline submits exactly that
text to `create_tweet` and the post is published — nothing aborts the post. -/
theorem overlong_tweet_submitted_counterexample :
    280 < (formatMainTweet 3 5 "1h" [longAddrToken]).length ∧
    (mainFlow 3 5 "1h" envAllOk [longAddrToken]).rootSubmittedText =
      some (formatMainTweet 3 5 "1h" [longAddrToken]) ∧
    (mainFlow 3 5 "1h" envAllOk [longAddrToken]).published = [1] ∧
    (mainFlow 3 5 "1h" envAllOk [longAddrToken]).failed = false := by
  refine ⟨by decide, rfl, rfl, rfl⟩

/-- C1 amended: the length check at lines 588-604 only emits a warning log; the
text handed to the root `create_tweet` is always exactly the rendered template
output, whatever its length — over-length posts are submitted unchanged, never
truncated or withheld. -/
theorem overlong_text_still_submitted (first_tweet_count total_count : Nat)
    (timeframe : String) (env : PublishEnv) (top_tokens : List FilteredToken) :
    (mainFlow first_tweet_count total_count timeframe env top_tokens).rootSubmittedText =
      some (formatMainTweet first_tweet_count total_count timeframe top_tokens) := by
  cases henv : env.rootPost with
  | error e => simp [mainFlow, runPublishSession, henv]
  | ok id =>
    by_cases hr : pyTruthyStrOpt (formatTokensReplyTweet first_tweet_count top_tokens) <;>
      cases hrp : env.replyPost <;>
      simp [mainFlow, runPublishSession, henv, hr, hrp]

/-- C8: if the root-post submission fails fatally, nothing is published, no
reply upload or submission is attempted, no pacing delay is slept, and the run
ends in the failed state. -/
theorem root_failure_no_replies (env : PublishEnv) (main_text : String)
    (reply_text : Option String) (e : TwError)
    (hroot : env.rootPost = Except.error e) :
    (runPublishSession env main_text reply_text).published = [] ∧
    (runPublishSession env main_text reply_text).replySubmitAttempts = 0 ∧
    (runPublishSession env main_text reply_text).replyUploadAttempts = 0 ∧
    (runPublishSession env main_text reply_text).sleeps = [] ∧
    (runPublishSession env main_text reply_text).failed = true := by
  simp [runPublishSession, hroot]

/-- Witness for C8: a concrete run whose root `create_tweet` fails. -/
theorem root_failure_no_replies_witness :
    envRootFail.rootPost =
      Except.error (TwError.tweepyError (some 401) "Unauthorized" "Invalid credentials") ∧
    ((runPublishSession envRootFail "main text" (some "reply text")).published = [] ∧
     (runPublishSession envRootFail "main text" (some "reply text")).replySubmitAttempts = 0 ∧
     (runPublishSession envRootFail "main text" (some "reply text")).replyUploadAttempts = 0 ∧
     (runPublishSession envRootFail "main text" (some "reply text")).sleeps = [] ∧
     (runPublishSession envRootFail "main text" (some "reply text")).failed = true) :=
  ⟨rfl, root_failure_no_replies envRootFail "main text" (some "reply text")
    (TwError.tweepyError (some 401) "Unauthorized" "Invalid credentials") rfl⟩

/-- C9 counterexample: the code has no image-upload failure policy
configuration at all; when the main image upload fails the run still publishes
both posts (text-only root), so no "strict" behavior (fail the run, publish
nothing) exists to configure. -/
theorem upload_failure_policy_counterexample :
    envUploadFails.mainUpload = Except.error (TwError.otherError "TweepyException") ∧
    (runPublishSession envUploadFails "main text" (some "reply text")).failed = false ∧
    (runPublishSession envUploadFails "main text" (some "reply text")).published = [11, 22] ∧
    (runPublishSession envUploadFails "main text" (some "reply text")).rootMediaAttached =
      false :=
  ⟨rfl, rfl, rfl, rfl⟩

/-- C9 amended: image-upload failure is always handled leniently — the upload
exception is caught locally, the root post is submitted without a media id,
and when a reply text exists the reply flow still runs; there is no strict
mode and no configuration flag selecting one. -/
theorem upload_failure_always_lenient (env : PublishEnv) (main_text : String)
    (reply_text : Option String) (e : TwError) (mid : Nat)
    (hup : env.mainUpload = Except.error e)
    (hroot : env.rootPost = Except.ok mid) :
    (runPublishSession env main_text reply_text).rootMediaAttached = false ∧
    (runPublishSession env main_text reply_text).published.head? = some mid ∧
    (pyTruthyStrOpt reply_text = true →
      (runPublishSession env main_text reply_text).replySubmitAttempts = 1) := by
  cases hex : env.mainImageExists <;>
    by_cases hr : pyTruthyStrOpt reply_text <;>
    cases hrp : env.replyPost <;>
    simp [runPublishSession, hup, hroot, hex, hr, hrp, pyTruthyNat]

/-- Witness for C9's amended theorem: the concrete failing-upload run. -/
theorem upload_failure_always_lenient_witness :
    (envUploadFails.mainUpload = Except.error (TwError.otherError "TweepyException") ∧
     envUploadFails.rootPost = Except.ok 11) ∧
    ((runPublishSession envUploadFails "main text" (some "reply text")).rootMediaAttached =
        false ∧
     (runPublishSession envUploadFails "main text" (some "reply text")).published.head? =
        some 11 ∧
     (pyTruthyStrOpt (some "reply text") = true →
       (runPublishSession envUploadFails "main text" (some "reply text")).replySubmitAttempts =
         1)) :=
  ⟨⟨rfl, rfl⟩, upload_failure_always_lenient envUploadFails "main text" (some "reply text")
    (TwError.otherError "TweepyException") 11 rfl rfl⟩

/-- C10: when the ranked list is no longer than `first_tweet_count`,
`format_tokens_reply_tweet` returns `None`, and the session publishes exactly
the root post: no pacing sleep, no reply-image upload, no reply submission,
and the run does not fail. -/
theorem short_list_single_post (first_tweet_count total_count : Nat) (timeframe : String)
    (env : PublishEnv) (top_tokens : List FilteredToken) (mid : Nat)
    (hlen : top_tokens.length ≤ first_tweet_count)
    (hroot : env.rootPost = Except.ok mid) :
    formatTokensReplyTweet first_tweet_count top_tokens = none ∧
    (mainFlow first_tweet_count total_count timeframe env top_tokens).published = [mid] ∧
    (mainFlow first_tweet_count total_count timeframe env top_tokens).sleeps = [] ∧
    (mainFlow first_tweet_count total_count timeframe env top_tokens).replyUploadAttempts =
      0 ∧
    (mainFlow first_tweet_count total_count timeframe env top_tokens).replySubmitAttempts =
      0 ∧
    (mainFlow first_tweet_count total_count timeframe env top_tokens).failed = false := by
  have hdrop : top_tokens.drop first_tweet_count = [] :=
    List.drop_eq_nil_of_le hlen
  have hfmt : formatTokensReplyTweet first_tweet_count top_tokens = none := by
    simp [formatTokensReplyTweet, hdrop]
  refine ⟨hfmt, ?_⟩
  simp [mainFlow, runPublishSession, hroot, hfmt, pyTruthyStrOpt]

/-- Witness for C10: a singleton ranked list under `first_tweet_count = 3`. -/
theorem short_list_single_post_witness :
    (([longAddrToken] : List FilteredToken).length ≤ 3 ∧ envAllOk.rootPost = Except.ok 1) ∧
    (formatTokensReplyTweet 3 [longAddrToken] = none ∧
     (mainFlow 3 5 "1h" envAllOk [longAddrToken]).published = [1] ∧
     (mainFlow 3 5 "1h" envAllOk [longAddrToken]).sleeps = [] ∧
     (mainFlow 3 5 "1h" envAllOk [longAddrToken]).replyUploadAttempts = 0 ∧
     (mainFlow 3 5 "1h" envAllOk [longAddrToken]).replySubmitAttempts = 0 ∧
     (mainFlow 3 5 "1h" envAllOk [longAddrToken]).failed = false) :=
  ⟨⟨by decide, rfl⟩, short_list_single_post 3 5 "1h" envAllOk [longAddrToken] 1
    (by decide) rfl⟩

end TweetX
